import Mathlib

/-!
Verification of the EEGMotorImagery model-builder library (EEGModels.py).

The source file is a collection of pure graph-builder functions over the Keras
functional API.  We shallowly embed each builder as a Lean function that
produces the computation graph it wires up: a `Node` term (input nodes, layer
applications, binary concatenations) together with the list of declared model
inputs.  Every layer application records exactly the arguments the source
passes at that call site; Keras arguments that the source leaves at their
library defaults at every call site are either recorded with the library's
default value (batch-normalization axis/epsilon/momentum, convolution strides)
or omitted from the layer descriptor when no call site ever passes them.
Float hyperparameters (dropout rates, norm bounds, regularizer rates) are
embedded as exact rationals.
-/

/-- Activation functions appearing in the source: the string-named keras
activations plus the two custom callables `square` and `log` defined for
ShallowConvNet. -/
inductive Act where
  | elu
  | relu
  | softmax
  | square
  | logc
deriving DecidableEq

/-- The two dropout layer variants a builder's `dropoutType` string can
resolve to. -/
inductive DropKind where
  | spatialDropout2D
  | dropout
deriving DecidableEq

/-- A keras `max_norm` weight constraint: bound plus the axis tuple
(the keras default axis is `0`). -/
structure MaxNorm where
  bound : ℚ
  axes : List Nat
deriving DecidableEq

/-- One graph layer, mirroring the keras layer calls made in EEGModels.py.
Field order for `conv2D`: filters, kernel, strides, padSame, useBias,
kernel constraint, kernel regularizer (l1 rate, l2 rate). -/
inductive Layer where
  | conv2D (filters : Nat) (kernel : Nat × Nat) (strides : Nat × Nat)
      (padSame : Bool) (useBias : Bool)
      (constraintK : Option MaxNorm) (regularizerK : Option (ℚ × ℚ))
  | depthwiseConv2D (kernel : Nat × Nat) (useBias : Bool)
      (depthMultiplier : Nat) (constraintD : MaxNorm)
  | separableConv2D (filters : Nat) (kernel : Nat × Nat)
      (useBias : Bool) (padSame : Bool)
  | conv3D (filters : Nat) (kernel : Nat × Nat × Nat) (strides : Nat × Nat × Nat)
  | batchNorm (axis : Int) (epsilon : ℚ) (momentum : ℚ)
  | activation (f : Act)
  | avgPool2D (pool : Nat × Nat) (strides : Option (Nat × Nat))
  | maxPool2D (pool : Nat × Nat) (strides : Option (Nat × Nat))
  | dropoutL (kind : DropKind) (rate : ℚ)
  | permute (dims : Nat × Nat × Nat)
  | flatten
  | dense (units : Nat) (constraintK : Option MaxNorm) (act : Option Act)
deriving DecidableEq

/-- A computation-graph node: a named input with its (unbatched) shape, a
layer applied to a node, or a keras `concatenate` of two nodes. -/
inductive Node where
  | input (id : Nat) (shape : List Nat)
  | apply (l : Layer) (src : Node)
  | concat (a b : Node)
deriving DecidableEq

/-- The value a builder returns: `Model(inputs=…, outputs=…)`, with the input
nodes listed in the order the source lists them. -/
structure NModel where
  inputs : List Node
  output : Node
deriving DecidableEq

/-- The ValueError message raised by EEGNet, EEGNet_SSVEP and EEGNet_fusion
on an unrecognized `dropoutType`. -/
def dropoutTypeErrMsg : String :=
  "dropoutType must be one of SpatialDropout2D or Dropout, passed as a string."

/-- The `if dropoutType == 'SpatialDropout2D' … elif … else raise ValueError`
prologue shared verbatim by EEGNet (lines 60-66), EEGNet_SSVEP (138-144) and
EEGNet_fusion (595-601).  It runs before any graph node is constructed. -/
def resolveDropoutType (s : String) : Except String DropKind :=
  if s = "SpatialDropout2D" then Except.ok DropKind.spatialDropout2D
  else if s = "Dropout" then Except.ok DropKind.dropout
  else Except.error dropoutTypeErrMsg

/-- Graph built by `EEGNet` (lines 56-110) once the dropout type has been
resolved.  Geometry tables follow the `if cpu:` / `else:` branch at
lines 68-81 exactly. -/
def EEGNetGraph (nb_classes Chans Samples : Nat) (dropoutRate : ℚ)
    (kernLength F1 D F2 : Nat) (norm_rate : ℚ) (dropoutType : DropKind)
    (cpu : Bool) : NModel :=
  let input_shape : List Nat := if cpu then [Samples, Chans, 1] else [1, Chans, Samples]
  let conv_filters : Nat × Nat := if cpu then (kernLength, 1) else (1, kernLength)
  let depth_filters : Nat × Nat := if cpu then (1, Chans) else (Chans, 1)
  let pool_size : Nat × Nat := if cpu then (4, 1) else (1, 6)
  let pool_size2 : Nat × Nat := if cpu then (8, 1) else (1, 12)
  let separable_filters : Nat × Nat := if cpu then (16, 1) else (1, 20)
  let input1 := Node.input 0 input_shape
  let block1 := Node.apply (.conv2D F1 conv_filters (1, 1) true false none none) input1
  let block1 := Node.apply (.batchNorm 1 (1/1000) (99/100)) block1
  let block1 := Node.apply (.depthwiseConv2D depth_filters false D ⟨1, [0]⟩) block1
  let block1 := Node.apply (.batchNorm 1 (1/1000) (99/100)) block1
  let block1 := Node.apply (.activation .elu) block1
  let block1 := Node.apply (.avgPool2D pool_size none) block1
  let block1 := Node.apply (.dropoutL dropoutType dropoutRate) block1
  let block2 := Node.apply (.separableConv2D F2 separable_filters false true) block1
  let block2 := Node.apply (.batchNorm 1 (1/1000) (99/100)) block2
  let block2 := Node.apply (.activation .elu) block2
  let block2 := Node.apply (.avgPool2D pool_size2 none) block2
  let block2 := Node.apply (.dropoutL dropoutType dropoutRate) block2
  let flattenN := Node.apply .flatten block2
  let denseN := Node.apply (.dense nb_classes (some ⟨norm_rate, [0]⟩) none) flattenN
  let softmaxN := Node.apply (.activation .softmax) denseN
  { inputs := [input1], output := softmaxN }

/-- Builder `EEGNet` (lines 56-110): resolve the dropout type string, then build. -/
def EEGNet (nb_classes Chans Samples : Nat) (dropoutRate : ℚ)
    (kernLength F1 D F2 : Nat) (norm_rate : ℚ) (dropoutType : String)
    (cpu : Bool) : Except String NModel :=
  match resolveDropoutType dropoutType with
  | .ok k =>
      .ok (EEGNetGraph nb_classes Chans Samples dropoutRate kernLength F1 D F2 norm_rate k cpu)
  | .error e => .error e

/-- Graph built by `EEGNet_SSVEP` (lines 115-188) once the dropout type has
been resolved.  Identical block structure to `EEGNetGraph` but with the
SSVEP geometry table (lines 146-161) and, at line 185, a dense layer with
no kernel constraint. -/
def EEGNet_SSVEPGraph (nb_classes Chans Samples : Nat) (dropoutRate : ℚ)
    (kernLength F1 D F2 : Nat) (dropoutType : DropKind) (cpu : Bool) : NModel :=
  let input_shape : List Nat := if cpu then [Samples, Chans, 1] else [1, Chans, Samples]
  let conv_filters : Nat × Nat := if cpu then (kernLength, 1) else (1, kernLength)
  let depth_filters : Nat × Nat := if cpu then (1, Chans) else (Chans, 1)
  let pool_size : Nat × Nat := if cpu then (4, 1) else (1, 4)
  let pool_size2 : Nat × Nat := if cpu then (8, 1) else (1, 8)
  let separable_filters : Nat × Nat := if cpu then (16, 1) else (1, 16)
  let input1 := Node.input 0 input_shape
  let block1 := Node.apply (.conv2D F1 conv_filters (1, 1) true false none none) input1
  let block1 := Node.apply (.batchNorm 1 (1/1000) (99/100)) block1
  let block1 := Node.apply (.depthwiseConv2D depth_filters false D ⟨1, [0]⟩) block1
  let block1 := Node.apply (.batchNorm 1 (1/1000) (99/100)) block1
  let block1 := Node.apply (.activation .elu) block1
  let block1 := Node.apply (.avgPool2D pool_size none) block1
  let block1 := Node.apply (.dropoutL dropoutType dropoutRate) block1
  let block2 := Node.apply (.separableConv2D F2 separable_filters false true) block1
  let block2 := Node.apply (.batchNorm 1 (1/1000) (99/100)) block2
  let block2 := Node.apply (.activation .elu) block2
  let block2 := Node.apply (.avgPool2D pool_size2 none) block2
  let block2 := Node.apply (.dropoutL dropoutType dropoutRate) block2
  let flattenN := Node.apply .flatten block2
  let denseN := Node.apply (.dense nb_classes none none) flattenN
  let softmaxN := Node.apply (.activation .softmax) denseN
  { inputs := [input1], output := softmaxN }

/-- Builder `EEGNet_SSVEP` (lines 115-188). -/
def EEGNet_SSVEP (nb_classes Chans Samples : Nat) (dropoutRate : ℚ)
    (kernLength F1 D F2 : Nat) (dropoutType : String) (cpu : Bool) :
    Except String NModel :=
  match resolveDropoutType dropoutType with
  | .ok k =>
      .ok (EEGNet_SSVEPGraph nb_classes Chans Samples dropoutRate kernLength F1 D F2 k cpu)
  | .error e => .error e

/-- Builder `EEGNet_old` (lines 192-248).  No layout flag and no dropout-type
selector; `kernels` is used at exactly the indices 0 and 1, embedded here as
a pair. -/
def EEGNet_old (nb_classes Chans Samples : Nat) (regRate dropoutRate : ℚ)
    (kernels : (Nat × Nat) × (Nat × Nat)) (strides : Nat × Nat) : NModel :=
  let input_main := Node.input 0 [1, Chans, Samples]
  let layer1 := Node.apply
    (.conv2D 16 (Chans, 1) (1, 1) false true none (some (regRate, regRate))) input_main
  let layer1 := Node.apply (.batchNorm 1 (1/1000) (99/100)) layer1
  let layer1 := Node.apply (.activation .elu) layer1
  let layer1 := Node.apply (.dropoutL .dropout dropoutRate) layer1
  let permute1 := Node.apply (.permute (2, 1, 3)) layer1
  let layer2 := Node.apply
    (.conv2D 4 kernels.1 strides true true none (some (0, regRate))) permute1
  let layer2 := Node.apply (.batchNorm 1 (1/1000) (99/100)) layer2
  let layer2 := Node.apply (.activation .elu) layer2
  let layer2 := Node.apply (.dropoutL .dropout dropoutRate) layer2
  let layer3 := Node.apply
    (.conv2D 4 kernels.2 strides true true none (some (0, regRate))) layer2
  let layer3 := Node.apply (.batchNorm 1 (1/1000) (99/100)) layer3
  let layer3 := Node.apply (.activation .elu) layer3
  let layer3 := Node.apply (.dropoutL .dropout dropoutRate) layer3
  let flattenN := Node.apply .flatten layer3
  let denseN := Node.apply (.dense nb_classes none none) flattenN
  let softmaxN := Node.apply (.activation .softmax) denseN
  { inputs := [input_main], output := softmaxN }

/-- Source defaults of `EEGNet_old` (line 192-193): regRate 0.0001,
dropoutRate 0.25, kernels [(2, 32), (8, 4)], strides (2, 4). -/
def EEGNet_old_defaults : (ℚ × ℚ) × ((Nat × Nat) × (Nat × Nat)) × (Nat × Nat) :=
  ((1/10000, 1/4), ((2, 32), (8, 4)), (2, 4))

/-- Builder `DeepConvNet` (lines 252-329). -/
def DeepConvNet (nb_classes Chans Samples : Nat) (dropoutRate : ℚ)
    (cpu : Bool) : NModel :=
  let input_shape : List Nat := if cpu then [Samples, Chans, 1] else [1, Chans, Samples]
  let conv_filters : Nat × Nat := if cpu then (5, 1) else (1, 5)
  let conv_filters2 : Nat × Nat := if cpu then (1, Chans) else (Chans, 1)
  let pool : Nat × Nat := if cpu then (2, 1) else (1, 2)
  let strides : Nat × Nat := if cpu then (2, 1) else (1, 2)
  let input_main := Node.input 0 input_shape
  let block1 := Node.apply
    (.conv2D 25 conv_filters (1, 1) false true (some ⟨2, [0, 1, 2]⟩) none) input_main
  let block1 := Node.apply
    (.conv2D 25 conv_filters2 (1, 1) false true (some ⟨2, [0, 1, 2]⟩) none) block1
  let block1 := Node.apply (.batchNorm 1 (1/100000) (1/10)) block1
  let block1 := Node.apply (.activation .elu) block1
  let block1 := Node.apply (.maxPool2D pool (some strides)) block1
  let block1 := Node.apply (.dropoutL .dropout dropoutRate) block1
  let block2 := Node.apply
    (.conv2D 50 conv_filters (1, 1) false true (some ⟨2, [0, 1, 2]⟩) none) block1
  let block2 := Node.apply (.batchNorm 1 (1/100000) (1/10)) block2
  let block2 := Node.apply (.activation .elu) block2
  let block2 := Node.apply (.maxPool2D pool (some strides)) block2
  let block2 := Node.apply (.dropoutL .dropout dropoutRate) block2
  let block3 := Node.apply
    (.conv2D 100 conv_filters (1, 1) false true (some ⟨2, [0, 1, 2]⟩) none) block2
  let block3 := Node.apply (.batchNorm 1 (1/100000) (1/10)) block3
  let block3 := Node.apply (.activation .elu) block3
  let block3 := Node.apply (.maxPool2D pool (some strides)) block3
  let block3 := Node.apply (.dropoutL .dropout dropoutRate) block3
  let block4 := Node.apply
    (.conv2D 200 conv_filters (1, 1) false true (some ⟨2, [0, 1, 2]⟩) none) block3
  let block4 := Node.apply (.batchNorm 1 (1/100000) (1/10)) block4
  let block4 := Node.apply (.activation .elu) block4
  let block4 := Node.apply (.maxPool2D pool (some strides)) block4
  let block4 := Node.apply (.dropoutL .dropout dropoutRate) block4
  let flattenN := Node.apply .flatten block4
  let denseN := Node.apply (.dense nb_classes (some ⟨1/2, [0]⟩) none) flattenN
  let softmaxN := Node.apply (.activation .softmax) denseN
  { inputs := [input_main], output := softmaxN }

/-- The `K.clip` call inside the custom `log` activation (line 337):
`K.clip(x, min_value, max_value)` clamps `x` into `[min_value, max_value]`. -/
def K_clip (x lo hi : ℚ) : ℚ := min (max x lo) hi

/-- Argument fed to `K.log` by the custom `log` activation (lines 336-337):
`K.clip(x, min_value = 1e-7, max_value = 10000)`. -/
def log_clip_arg (x : ℚ) : ℚ := K_clip x (1/10000000) 10000

/-- Builder `ShallowConvNet` (lines 340-394). -/
def ShallowConvNet (nb_classes Chans Samples : Nat) (dropoutRate : ℚ)
    (cpu : Bool) : NModel :=
  let input_shape : List Nat := if cpu then [Samples, Chans, 1] else [1, Chans, Samples]
  let conv_filters : Nat × Nat := if cpu then (13, 1) else (1, 13)
  let conv_filters2 : Nat × Nat := if cpu then (1, Chans) else (Chans, 1)
  let pool_size : Nat × Nat := if cpu then (35, 1) else (1, 35)
  let strides : Nat × Nat := if cpu then (7, 1) else (1, 7)
  let input_main := Node.input 0 input_shape
  let block1 := Node.apply
    (.conv2D 40 conv_filters (1, 1) false true (some ⟨2, [0, 1, 2]⟩) none) input_main
  let block1 := Node.apply
    (.conv2D 40 conv_filters2 (1, 1) false false (some ⟨2, [0, 1, 2]⟩) none) block1
  let block1 := Node.apply (.batchNorm 1 (1/100000) (1/10)) block1
  let block1 := Node.apply (.activation .square) block1
  let block1 := Node.apply (.avgPool2D pool_size (some strides)) block1
  let block1 := Node.apply (.activation .logc) block1
  let block1 := Node.apply (.dropoutL .dropout dropoutRate) block1
  let flattenN := Node.apply .flatten block1
  let denseN := Node.apply (.dense nb_classes (some ⟨1/2, [0]⟩) none) flattenN
  let softmaxN := Node.apply (.activation .softmax) denseN
  { inputs := [input_main], output := softmaxN }

/-- Builder `ConvNet3D` (lines 398-439). -/
def ConvNet3D (nb_classes Chans Chunks Samples : Nat) (dropoutRate : ℚ)
    (cpu : Bool) : NModel :=
  let input_shape : List Nat :=
    if cpu then [Samples, Chunks, Chans, 1] else [1, Chans, Chunks, Samples]
  let conv_filters : Nat × Nat × Nat := if cpu then (5, 3, 3) else (3, 3, 5)
  let conv_strides : Nat × Nat × Nat := if cpu then (4, 2, 2) else (2, 2, 4)
  let conv_filters2 : Nat × Nat × Nat := if cpu then (3, 2, 2) else (2, 2, 3)
  let conv_strides2 : Nat × Nat × Nat := (2, 2, 2)
  let conv_filters3 : Nat × Nat × Nat := if cpu then (3, 1, 2) else (2, 1, 3)
  let conv_strides3 : Nat × Nat × Nat := (2, 2, 2)
  let input_main := Node.input 0 input_shape
  let block1 := Node.apply (.conv3D 16 conv_filters conv_strides) input_main
  let block1 := Node.apply (.batchNorm (-1) (1/1000) (99/100)) block1
  let block1 := Node.apply (.activation .elu) block1
  let block1 := Node.apply (.dropoutL .dropout dropoutRate) block1
  let block2 := Node.apply (.conv3D 32 conv_filters2 conv_strides2) block1
  let block2 := Node.apply (.batchNorm (-1) (1/1000) (99/100)) block2
  let block2 := Node.apply (.activation .elu) block2
  let block2 := Node.apply (.dropoutL .dropout dropoutRate) block2
  let block3 := Node.apply (.conv3D 64 conv_filters3 conv_strides3) block2
  let block3 := Node.apply (.batchNorm (-1) (1/1000) (99/100)) block3
  let block3 := Node.apply (.activation .elu) block3
  let block3 := Node.apply (.dropoutL .dropout dropoutRate) block3
  let flattenN := Node.apply .flatten block3
  let outN := Node.apply (.dense nb_classes none none) flattenN
  let outN := Node.apply (.activation .softmax) outN
  { inputs := [input_main], output := outN }

/-- Builder `DeeperConvNet` (lines 441-501).  Every dropout rate in the body is a
hard-coded literal (0.2 five times, then 0.5); the `dropoutRate` parameter is
never read. -/
def DeeperConvNet (nb_classes Chans Samples : Nat) (dropoutRate : ℚ)
    (cpu : Bool) : NModel :=
  let input_shape : List Nat := if cpu then [Samples, Chans, 1] else [1, Chans, Samples]
  let x := Node.input 0 input_shape
  let c1 := Node.apply (.conv2D 64 (3, 3) (1, 1) true true none none) x
  let a1 := Node.apply (.activation .relu) c1
  let c2 := Node.apply (.conv2D 64 (3, 3) (1, 1) true true none none) a1
  let a2 := Node.apply (.activation .relu) c2
  let b1 := Node.apply (.batchNorm (-1) (1/1000) (99/100)) a2
  let m1 := Node.apply (.maxPool2D (2, 2) (some (2, 2))) b1
  let d1 := Node.apply (.dropoutL .dropout (1/5)) m1
  let c3 := Node.apply (.conv2D 128 (3, 3) (1, 1) true true none none) d1
  let a3 := Node.apply (.activation .relu) c3
  let c4 := Node.apply (.conv2D 128 (3, 3) (1, 1) true true none none) a3
  let a4 := Node.apply (.activation .relu) c4
  let b2 := Node.apply (.batchNorm (-1) (1/1000) (99/100)) a4
  let m2 := Node.apply (.maxPool2D (2, 2) (some (2, 2))) b2
  let d2 := Node.apply (.dropoutL .dropout (1/5)) m2
  let c5 := Node.apply (.conv2D 256 (3, 3) (1, 1) true true none none) d2
  let a5 := Node.apply (.activation .relu) c5
  let c6 := Node.apply (.conv2D 256 (3, 3) (1, 1) true true none none) a5
  let a6 := Node.apply (.activation .relu) c6
  let c7 := Node.apply (.conv2D 256 (3, 3) (1, 1) true true none none) a6
  let a7 := Node.apply (.activation .relu) c7
  let b3 := Node.apply (.batchNorm (-1) (1/1000) (99/100)) a7
  let m3 := Node.apply (.maxPool2D (2, 2) (some (2, 2))) b3
  let d3 := Node.apply (.dropoutL .dropout (1/5)) m3
  let c8 := Node.apply (.conv2D 512 (3, 3) (1, 1) true true none none) d3
  let a8 := Node.apply (.activation .relu) c8
  let c9 := Node.apply (.conv2D 512 (3, 3) (1, 1) true true none none) a8
  let a9 := Node.apply (.activation .relu) c9
  let c10 := Node.apply (.conv2D 512 (3, 3) (1, 1) true true none none) a9
  let a10 := Node.apply (.activation .relu) c10
  let b4 := Node.apply (.batchNorm (-1) (1/1000) (99/100)) a10
  let m4 := Node.apply (.maxPool2D (2, 2) (some (2, 2))) b4
  let d4 := Node.apply (.dropoutL .dropout (1/5)) m4
  let c11 := Node.apply (.conv2D 512 (3, 3) (1, 1) true true none none) d4
  let a11 := Node.apply (.activation .relu) c11
  let c12 := Node.apply (.conv2D 512 (3, 3) (1, 1) true true none none) a11
  let a12 := Node.apply (.activation .relu) c12
  let c13 := Node.apply (.conv2D 512 (3, 3) (1, 1) true true none none) a12
  let a13 := Node.apply (.activation .relu) c13
  let b5 := Node.apply (.batchNorm (-1) (1/1000) (99/100)) a13
  let m5 := Node.apply (.maxPool2D (2, 2) (some (2, 2))) b5
  let d5 := Node.apply (.dropoutL .dropout (1/5)) m5
  let f := Node.apply .flatten d5
  let de1 := Node.apply (.dense 4096 none (some .relu)) f
  let de2 := Node.apply (.dense 4096 none (some .relu)) de1
  let d6 := Node.apply (.dropoutL .dropout (1/2)) de2
  let de3 := Node.apply (.dense nb_classes none (some .softmax)) d6
  { inputs := [x], output := de3 }

/-- Builder `ConvNet2D` (lines 503-539).  The single dropout layer uses the
hard-coded rate 0.45; the `dropoutRate` parameter is never read. -/
def ConvNet2D (nb_classes Chans Samples : Nat) (dropoutRate : ℚ)
    (cpu : Bool) : NModel :=
  let input_shape : List Nat := if cpu then [Samples, Chans, 1] else [1, Chans, Samples]
  let conv_filters : Nat × Nat := if cpu then (4, 2) else (2, 4)
  let conv_filters2 : Nat × Nat := if cpu then (4, 2) else (2, 4)
  let pool_size : Nat × Nat := if cpu then (4, 2) else (2, 4)
  let pool_size2 : Nat × Nat := (4, 4)
  let input_layer := Node.input 0 input_shape
  let x := Node.apply (.conv2D 64 conv_filters (1, 1) false true none none) input_layer
  let x := Node.apply (.batchNorm (-1) (1/1000) (99/100)) x
  let x := Node.apply (.activation .relu) x
  let x := Node.apply (.maxPool2D pool_size none) x
  let y := Node.apply (.conv2D 128 conv_filters2 (1, 1) false true none none) x
  let y := Node.apply (.batchNorm (-1) (1/1000) (99/100)) y
  let y := Node.apply (.activation .relu) y
  let y := Node.apply (.maxPool2D pool_size2 none) y
  let f := Node.apply .flatten y
  let k := Node.apply (.dense 1024 none none) f
  let k := Node.apply (.batchNorm (-1) (1/1000) (99/100)) k
  let k := Node.apply (.activation .relu) k
  let k := Node.apply (.dropoutL .dropout (9/20)) k
  let outN := Node.apply (.dense nb_classes none none) k
  let outN := Node.apply (.activation .softmax) outN
  { inputs := [input_layer], output := outN }

/-- Builder `ConvNet3D_2` (lines 541-588). -/
def ConvNet3D_2 (nb_classes Chans Chunks Samples : Nat) (dropoutRate : ℚ)
    (cpu : Bool) : NModel :=
  let input_shape : List Nat :=
    if cpu then [Samples, Chunks, Chans, 1] else [1, Chans, Chunks, Samples]
  let conv_filters : Nat × Nat × Nat := if cpu then (5, 3, 3) else (3, 3, 5)
  let conv_strides : Nat × Nat × Nat := if cpu then (4, 2, 2) else (2, 2, 4)
  let conv_filters2 : Nat × Nat × Nat := if cpu then (3, 2, 2) else (2, 2, 3)
  let conv_strides2 : Nat × Nat × Nat := (2, 2, 2)
  let conv_filters3 : Nat × Nat × Nat := if cpu then (3, 1, 2) else (2, 1, 3)
  let conv_strides3 : Nat × Nat × Nat := (2, 2, 2)
  let input_layer := Node.input 0 input_shape
  let x := Node.apply (.conv3D 16 conv_filters conv_strides) input_layer
  let x := Node.apply (.batchNorm (-1) (1/1000) (99/100)) x
  let x := Node.apply (.activation .elu) x
  let x := Node.apply (.dropoutL .dropout dropoutRate) x
  let y := Node.apply (.conv3D 32 conv_filters2 conv_strides2) x
  let y := Node.apply (.batchNorm (-1) (1/1000) (99/100)) y
  let y := Node.apply (.activation .elu) y
  let y := Node.apply (.dropoutL .dropout dropoutRate) y
  let z := Node.apply (.conv3D 64 conv_filters3 conv_strides3) y
  let z := Node.apply (.batchNorm (-1) (1/1000) (99/100)) z
  let z := Node.apply (.activation .elu) z
  let z := Node.apply (.dropoutL .dropout dropoutRate) z
  let f := Node.apply .flatten z
  let h := Node.apply (.dense 64 none none) f
  let h := Node.apply (.batchNorm (-1) (1/1000) (99/100)) h
  let h := Node.apply (.activation .relu) h
  let k := Node.apply (.dense 128 none none) h
  let k := Node.apply (.batchNorm (-1) (1/1000) (99/100)) k
  let k := Node.apply (.activation .relu) k
  let outN := Node.apply (.dense nb_classes none none) k
  let outN := Node.apply (.activation .softmax) outN
  { inputs := [input_layer], output := outN }

/-- Graph built by `EEGNet_fusion` (lines 592-706) once the dropout type has
been resolved.  The double assignments `F1_3 = 32; F1_3 = 64` and
`F2_3 = 64; F2_3 = 128` of the source (lines 616-617, 620-621) are mirrored
by shadowing lets. -/
def EEGNet_fusionGraph (nb_classes Chans Samples : Nat)
    (dropoutRate norm_rate : ℚ) (dropoutType : DropKind) : NModel :=
  let input_shape : List Nat := [1, Chans, Samples]
  let conv_filters : Nat × Nat := (1, 64)
  let conv_filters2 : Nat × Nat := (1, 96)
  let conv_filters3 : Nat × Nat := (1, 128)
  let depth_filters : Nat × Nat := (Chans, 1)
  let pool_size : Nat × Nat := (1, 4)
  let pool_size2 : Nat × Nat := (1, 8)
  let separable_filters : Nat × Nat := (1, 8)
  let separable_filters2 : Nat × Nat := (1, 16)
  let separable_filters3 : Nat × Nat := (1, 32)
  let F1 := 8
  let F1_2 := 16
  let F1_3 := 32
  let F1_3 := 64
  let F2 := 16
  let F2_2 := 32
  let F2_3 := 64
  let F2_3 := 128
  let D := 2
  let D2 := 2
  let D3 := 2
  let input1 := Node.input 0 input_shape
  let block1 := Node.apply (.conv2D F1 conv_filters (1, 1) true false none none) input1
  let block1 := Node.apply (.batchNorm 1 (1/1000) (99/100)) block1
  let block1 := Node.apply (.depthwiseConv2D depth_filters false D ⟨1, [0]⟩) block1
  let block1 := Node.apply (.batchNorm 1 (1/1000) (99/100)) block1
  let block1 := Node.apply (.activation .elu) block1
  let block1 := Node.apply (.avgPool2D pool_size none) block1
  let block1 := Node.apply (.dropoutL dropoutType dropoutRate) block1
  let block2 := Node.apply (.separableConv2D F2 separable_filters false true) block1
  let block2 := Node.apply (.batchNorm 1 (1/1000) (99/100)) block2
  let block2 := Node.apply (.activation .elu) block2
  let block2 := Node.apply (.avgPool2D pool_size2 none) block2
  let block2 := Node.apply (.dropoutL dropoutType dropoutRate) block2
  let block2 := Node.apply .flatten block2
  let input2 := Node.input 1 input_shape
  let block3 := Node.apply (.conv2D F1_2 conv_filters2 (1, 1) true false none none) input2
  let block3 := Node.apply (.batchNorm 1 (1/1000) (99/100)) block3
  let block3 := Node.apply (.depthwiseConv2D depth_filters false D2 ⟨1, [0]⟩) block3
  let block3 := Node.apply (.batchNorm 1 (1/1000) (99/100)) block3
  let block3 := Node.apply (.activation .elu) block3
  let block3 := Node.apply (.avgPool2D pool_size none) block3
  let block3 := Node.apply (.dropoutL dropoutType dropoutRate) block3
  let block4 := Node.apply (.separableConv2D F2_2 separable_filters2 false true) block3
  let block4 := Node.apply (.batchNorm 1 (1/1000) (99/100)) block4
  let block4 := Node.apply (.activation .elu) block4
  let block4 := Node.apply (.avgPool2D pool_size2 none) block4
  let block4 := Node.apply (.dropoutL dropoutType dropoutRate) block4
  let block4 := Node.apply .flatten block4
  let input3 := Node.input 2 input_shape
  let block5 := Node.apply (.conv2D F1_3 conv_filters3 (1, 1) true false none none) input3
  let block5 := Node.apply (.batchNorm 1 (1/1000) (99/100)) block5
  let block5 := Node.apply (.depthwiseConv2D depth_filters false D3 ⟨1, [0]⟩) block5
  let block5 := Node.apply (.batchNorm 1 (1/1000) (99/100)) block5
  let block5 := Node.apply (.activation .elu) block5
  let block5 := Node.apply (.avgPool2D pool_size none) block5
  let block5 := Node.apply (.dropoutL dropoutType dropoutRate) block5
  let block6 := Node.apply (.separableConv2D F2_3 separable_filters3 false true) block5
  let block6 := Node.apply (.batchNorm 1 (1/1000) (99/100)) block6
  let block6 := Node.apply (.activation .elu) block6
  let block6 := Node.apply (.avgPool2D pool_size2 none) block6
  let block6 := Node.apply (.dropoutL dropoutType dropoutRate) block6
  let block6 := Node.apply .flatten block6
  let merge_one := Node.concat block2 block4
  let merge_two := Node.concat merge_one block6
  let flattenN := Node.apply .flatten merge_two
  let denseN := Node.apply (.dense nb_classes (some ⟨norm_rate, [0]⟩) none) flattenN
  let softmaxN := Node.apply (.activation .softmax) denseN
  { inputs := [input1, input2, input3], output := softmaxN }

/-- Builder `EEGNet_fusion` (lines 592-706). -/
def EEGNet_fusion (nb_classes Chans Samples : Nat)
    (dropoutRate norm_rate : ℚ) (dropoutType : String) : Except String NModel :=
  match resolveDropoutType dropoutType with
  | .ok k => .ok (EEGNet_fusionGraph nb_classes Chans Samples dropoutRate norm_rate k)
  | .error e => .error e

/-- Layers along a chain, input-to-output order.  (Only used on chains and,
for branch inspection, on sub-chains that contain no `concat`.) -/
def chainLayers : Node → List Layer
  | .input _ _ => []
  | .apply l s => chainLayers s ++ [l]
  | .concat a b => chainLayers a ++ chainLayers b

/-- Width of the model output, when the output node is a dense layer of
`u` units followed by a softmax (either a separate softmax activation layer
or a softmax fused into the dense layer); softmax is elementwise, so this is
the length of the output vector. -/
def outputUnits : Node → Option Nat
  | .apply (.activation .softmax) (.apply (.dense u _ _) _) => some u
  | .apply (.dense u _ (some .softmax)) _ => some u
  | _ => none

/-- Rewrite the kind of every dropout layer to `k`, leaving every other
layer (and every field other than the kind) unchanged. -/
def setDropKind (k : DropKind) : Layer → Layer
  | .dropoutL _ r => .dropoutL k r
  | l => l

/-- Map a layer transformation over a whole graph. -/
def mapLayers (f : Layer → Layer) : Node → Node
  | .input i s => .input i s
  | .apply l s => .apply (f l) (mapLayers f s)
  | .concat a b => .concat (mapLayers f a) (mapLayers f b)

/-- Map a layer transformation over a model (inputs and output graph). -/
def mapModel (f : Layer → Layer) (m : NModel) : NModel :=
  { inputs := m.inputs.map (mapLayers f), output := mapLayers f m.output }

/-- The id of the input node a pure chain hangs from. -/
def rootInput : Node → Option Nat
  | .input i _ => some i
  | .apply _ s => rootInput s
  | .concat _ _ => none

/-- Shape of a node when it is an input node. -/
def inputShapeOf : Node → Option (List Nat)
  | .input _ sh => some sh
  | _ => none

/-- Pool sizes of the average-pooling layers of a chain, in order. -/
def avgPoolSizes (ls : List Layer) : List (Nat × Nat) :=
  ls.filterMap fun l => match l with
    | .avgPool2D p _ => some p
    | _ => none

/-- Dropout rates of the dropout layers of a chain, in order. -/
def dropRates (ls : List Layer) : List ℚ :=
  ls.filterMap fun l => match l with
    | .dropoutL _ r => some r
    | _ => none

/-- The (kernel, filters, useBias, constraint) of every `Conv2D` layer, in order. -/
def convSpecs (ls : List Layer) : List ((Nat × Nat) × Nat × Bool × Option MaxNorm) :=
  ls.filterMap fun l => match l with
    | .conv2D f k _ _ b c _ => some (k, f, b, c)
    | _ => none

/-- Filter counts of the `Conv2D` layers, in order. -/
def conv2DFilters (ls : List Layer) : List Nat :=
  ls.filterMap fun l => match l with
    | .conv2D f _ _ _ _ _ _ => some f
    | _ => none

/-- Kernels of the `Conv2D` layers, in order. -/
def conv2DKernels (ls : List Layer) : List (Nat × Nat) :=
  ls.filterMap fun l => match l with
    | .conv2D _ k _ _ _ _ _ => some k
    | _ => none

/-- Filter counts of the `SeparableConv2D` layers, in order. -/
def sepFilters (ls : List Layer) : List Nat :=
  ls.filterMap fun l => match l with
    | .separableConv2D f _ _ _ => some f
    | _ => none

/-- Kernels of the `SeparableConv2D` layers, in order. -/
def sepKernels (ls : List Layer) : List (Nat × Nat) :=
  ls.filterMap fun l => match l with
    | .separableConv2D _ k _ _ => some k
    | _ => none

/-- The axis arguments of the batch-normalization layers of a chain. -/
def bnAxes (ls : List Layer) : List Int :=
  ls.filterMap fun l => match l with
    | .batchNorm a _ _ => some a
    | _ => none

/-- When the output node is `softmax (dense u c _) (flatten _)` — a flattened
feature vector fed to a dense layer followed by a softmax activation — return
the dense layer's (units, kernel constraint). -/
def flatDenseSoftmaxHead : Node → Option (Nat × Option MaxNorm)
  | .apply (.activation .softmax) (.apply (.dense u c _) (.apply .flatten _)) =>
      some (u, c)
  | _ => none

/-- Every geometry tuple (kernels, explicit strides, pool windows) a 2-D
layer carries. -/
def layerTuples2D : Layer → List (Nat × Nat)
  | .conv2D _ k s _ _ _ _ => [k, s]
  | .depthwiseConv2D k _ _ _ => [k]
  | .separableConv2D _ k _ _ => [k]
  | .avgPool2D p s => p :: s.toList
  | .maxPool2D p s => p :: s.toList
  | _ => []

/-- All 2-D geometry tuples of a chain, in order. -/
def tuples2D (ls : List Layer) : List (Nat × Nat) :=
  (ls.map layerTuples2D).flatten

/-- All 3-D geometry tuples (conv kernels and strides) of a chain. -/
def layerTuples3D : Layer → List (Nat × Nat × Nat)
  | .conv3D _ k s => [k, s]
  | _ => []

/-- All 3-D geometry tuples of a chain, in order. -/
def tuples3D (ls : List Layer) : List (Nat × Nat × Nat) :=
  (ls.map layerTuples3D).flatten

/-- The component of a 2-D tuple that falls on the temporal (Samples) axis:
time-major (`cpu = true`) input is `(Samples, Chans, 1)`, so the first slot;
feature-major input is `(1, Chans, Samples)`, so the second slot. -/
def tslot (cpu : Bool) (t : Nat × Nat) : Nat := if cpu then t.1 else t.2

/-- The component of a 2-D tuple that falls on the EEG-channel axis. -/
def cslot (cpu : Bool) (t : Nat × Nat) : Nat := if cpu then t.2 else t.1

/-- Temporal-axis component of a 3-D tuple: time-major spatial order is
`(Samples, Chunks, Chans)`, feature-major is `(Chans, Chunks, Samples)`. -/
def tslot3 (cpu : Bool) (t : Nat × Nat × Nat) : Nat := if cpu then t.1 else t.2.2

/-- EEG-channel-axis component of a 3-D tuple. -/
def cslot3 (cpu : Bool) (t : Nat × Nat × Nat) : Nat := if cpu then t.2.2 else t.1

/-- Chunk-axis (middle) component of a 3-D tuple, the same in both layouts. -/
def mslot3 (t : Nat × Nat × Nat) : Nat := t.2.1

/-- Resolve a possibly negative axis index against a tensor rank
(batch axis included), as the tensor library does. -/
def resolveAxis (rank a : Int) : Int := if a < 0 then a + rank else a

/-- Feature-map axis of the batched 4-D tensor for each layout: the singleton
feature axis leads in the feature-major shape `(1, Chans, Samples)` (batched
axis 1) and trails in the time-major shape `(Samples, Chans, 1)` (batched
axis 3). -/
def featureAxis2D (cpu : Bool) : Int := if cpu then 3 else 1

/-- Feature-map axis of the batched 5-D tensor for each layout of the
volumetric builders. -/
def featureAxis3D (cpu : Bool) : Int := if cpu then 4 else 1

/-- Returns `true` on every layer except `flatten`. -/
def notFlatten : Layer → Bool
  | .flatten => false
  | _ => true

/-- Layers strictly before the first `flatten` of a chain (the ones that see
the full-rank feature map). -/
def preFlatten (ls : List Layer) : List Layer := ls.takeWhile notFlatten

/-- Layers strictly after the first `flatten` of a chain (the ones that see a
rank-2 `(batch, features)` tensor). -/
def postFlatten (ls : List Layer) : List Layer := (ls.dropWhile notFlatten).drop 1

/-- Returns `true` iff every batch-normalization layer of `ls` normalizes along
`featAxis` once its axis argument is resolved against `rank`. -/
def bnConsistentB (rank featAxis : Int) (ls : List Layer) : Bool :=
  (bnAxes ls).all fun a => resolveAxis rank a == featAxis

/-- Returns `true` on pooling layers. -/
def isPoolLayer : Layer → Bool
  | .avgPool2D _ _ => true
  | .maxPool2D _ _ => true
  | _ => false

/-- The first DeepConvNet stage: two biased, norm-constrained convolutions
(temporal kernel `cf`, then channel-spanning kernel `cf2`), batch
normalization with epsilon 1e-05 and momentum 0.1, elu, max pooling, and
dropout. -/
def deepStageFirst (cf cf2 pool strid : Nat × Nat) (r : ℚ) : List Layer :=
  [.conv2D 25 cf (1, 1) false true (some ⟨2, [0, 1, 2]⟩) none,
   .conv2D 25 cf2 (1, 1) false true (some ⟨2, [0, 1, 2]⟩) none,
   .batchNorm 1 (1/100000) (1/10),
   .activation .elu,
   .maxPool2D pool (some strid),
   .dropoutL .dropout r]

/-- A later DeepConvNet stage: one biased, norm-constrained temporal
convolution with `f` filters, batch normalization with epsilon 1e-05 and
momentum 0.1, elu, max pooling, and dropout. -/
def deepStageLater (f : Nat) (cf pool strid : Nat × Nat) (r : ℚ) : List Layer :=
  [.conv2D f cf (1, 1) false true (some ⟨2, [0, 1, 2]⟩) none,
   .batchNorm 1 (1/100000) (1/10),
   .activation .elu,
   .maxPool2D pool (some strid),
   .dropoutL .dropout r]

/-- C1: for each of EEGNet, EEGNet_SSVEP and EEGNet_fusion, a `dropoutType`
string other than 'SpatialDropout2D' or 'Dropout' makes the builder raise the
ValueError before any graph node is constructed (the builder returns the error
and no graph), while each of the two accepted strings succeeds; the two graphs
so produced differ only in which dropout layer variant is used (rewriting the
dropout kind, and nothing else, maps either graph onto the other). -/
theorem C1_dropout_policy_check (nb Chans Samples : Nat) (r nr : ℚ)
    (kl F1 D F2 : Nat) (cpu : Bool) (s : String) :
    (s ≠ "SpatialDropout2D" → s ≠ "Dropout" →
        EEGNet nb Chans Samples r kl F1 D F2 nr s cpu = .error dropoutTypeErrMsg
      ∧ EEGNet_SSVEP nb Chans Samples r kl F1 D F2 s cpu = .error dropoutTypeErrMsg
      ∧ EEGNet_fusion nb Chans Samples r nr s = .error dropoutTypeErrMsg)
  ∧ (EEGNet nb Chans Samples r kl F1 D F2 nr ("SpatialDropout2D") cpu
        = .ok (EEGNetGraph nb Chans Samples r kl F1 D F2 nr .spatialDropout2D cpu)
    ∧ EEGNet nb Chans Samples r kl F1 D F2 nr ("Dropout") cpu
        = .ok (EEGNetGraph nb Chans Samples r kl F1 D F2 nr .dropout cpu)
    ∧ mapModel (setDropKind .dropout)
        (EEGNetGraph nb Chans Samples r kl F1 D F2 nr .spatialDropout2D cpu)
        = EEGNetGraph nb Chans Samples r kl F1 D F2 nr .dropout cpu
    ∧ mapModel (setDropKind .spatialDropout2D)
        (EEGNetGraph nb Chans Samples r kl F1 D F2 nr .dropout cpu)
        = EEGNetGraph nb Chans Samples r kl F1 D F2 nr .spatialDropout2D cpu)
  ∧ (EEGNet_SSVEP nb Chans Samples r kl F1 D F2 ("SpatialDropout2D") cpu
        = .ok (EEGNet_SSVEPGraph nb Chans Samples r kl F1 D F2 .spatialDropout2D cpu)
    ∧ EEGNet_SSVEP nb Chans Samples r kl F1 D F2 ("Dropout") cpu
        = .ok (EEGNet_SSVEPGraph nb Chans Samples r kl F1 D F2 .dropout cpu)
    ∧ mapModel (setDropKind .dropout)
        (EEGNet_SSVEPGraph nb Chans Samples r kl F1 D F2 .spatialDropout2D cpu)
        = EEGNet_SSVEPGraph nb Chans Samples r kl F1 D F2 .dropout cpu
    ∧ mapModel (setDropKind .spatialDropout2D)
        (EEGNet_SSVEPGraph nb Chans Samples r kl F1 D F2 .dropout cpu)
        = EEGNet_SSVEPGraph nb Chans Samples r kl F1 D F2 .spatialDropout2D cpu)
  ∧ (EEGNet_fusion nb Chans Samples r nr ("SpatialDropout2D")
        = .ok (EEGNet_fusionGraph nb Chans Samples r nr .spatialDropout2D)
    ∧ EEGNet_fusion nb Chans Samples r nr ("Dropout")
        = .ok (EEGNet_fusionGraph nb Chans Samples r nr .dropout)
    ∧ mapModel (setDropKind .dropout)
        (EEGNet_fusionGraph nb Chans Samples r nr .spatialDropout2D)
        = EEGNet_fusionGraph nb Chans Samples r nr .dropout
    ∧ mapModel (setDropKind .spatialDropout2D)
        (EEGNet_fusionGraph nb Chans Samples r nr .dropout)
        = EEGNet_fusionGraph nb Chans Samples r nr .spatialDropout2D) := by
  refine ⟨?_, ⟨rfl, rfl, ?_, ?_⟩, ⟨rfl, rfl, ?_, ?_⟩, ⟨rfl, rfl, ?_, ?_⟩⟩
  · intro h1 h2
    refine ⟨?_, ?_, ?_⟩ <;>
      simp [EEGNet, EEGNet_SSVEP, EEGNet_fusion, resolveDropoutType, h1, h2]
  all_goals cases cpu <;> rfl

/-- Witness for C1 at a concrete input: dropoutType 'foo' is rejected with
the ValueError; dropoutType 'Dropout' builds the graph. -/
theorem C1_dropout_policy_check_witness :
    EEGNet 4 22 256 (1/2) 64 8 2 16 (1/4) ("foo") false = .error dropoutTypeErrMsg
  ∧ EEGNet 4 22 256 (1/2) 64 8 2 16 (1/4) ("Dropout") false
      = .ok (EEGNetGraph 4 22 256 (1/2) 64 8 2 16 (1/4) .dropout false) := by
  have h := C1_dropout_policy_check 4 22 256 (1/2) (1/4) 64 8 2 16 false ("foo")
  exact ⟨(h.1 (by decide) (by decide)).1, h.2.1.2.1⟩

/-- C2: for every builder, every layout mode it accepts, every positive
(class count, channel count, sample count) triple — and any values of the
remaining hyperparameters — the final dense classification layer is built
with exactly `nb` output units and is followed by a softmax (a separate
softmax layer, or, in DeeperConvNet, a softmax fused into the dense layer),
both elementwise-width-preserving, so the output vector has length `nb`. -/
theorem C2_class_count_units (nb Chans Samples Chunks : Nat) (r rr nr : ℚ)
    (kl F1 D F2 : Nat) (kers : (Nat × Nat) × (Nat × Nat)) (st : Nat × Nat)
    (dk : DropKind) (cpu : Bool)
    (hnb : 0 < nb) (hC : 0 < Chans) (hS : 0 < Samples) :
    outputUnits (EEGNetGraph nb Chans Samples r kl F1 D F2 nr dk cpu).output = some nb
  ∧ outputUnits (EEGNet_SSVEPGraph nb Chans Samples r kl F1 D F2 dk cpu).output = some nb
  ∧ outputUnits (EEGNet_old nb Chans Samples rr r kers st).output = some nb
  ∧ outputUnits (DeepConvNet nb Chans Samples r cpu).output = some nb
  ∧ outputUnits (ShallowConvNet nb Chans Samples r cpu).output = some nb
  ∧ outputUnits (ConvNet3D nb Chans Chunks Samples r cpu).output = some nb
  ∧ outputUnits (ConvNet3D_2 nb Chans Chunks Samples r cpu).output = some nb
  ∧ outputUnits (DeeperConvNet nb Chans Samples r cpu).output = some nb
  ∧ outputUnits (ConvNet2D nb Chans Samples r cpu).output = some nb
  ∧ outputUnits (EEGNet_fusionGraph nb Chans Samples r nr dk).output = some nb :=
  ⟨rfl, rfl, rfl, rfl, rfl, rfl, rfl, rfl, rfl, rfl⟩

/-- Witness for C2 at the concrete positive triple (4, 22, 256). -/
theorem C2_class_count_units_witness :
    outputUnits (DeepConvNet 4 22 256 (1/2) false).output = some 4 :=
  (C2_class_count_units 4 22 256 8 (1/2) (1/10000) (1/4) 64 8 2 16 ((2, 32), (8, 4))
      (2, 4) .dropout false (by decide) (by decide) (by decide)).2.2.2.1

/-- C3 counterexample: in EEGNet under the default feature-major layout
(cpu = false, built at nb=4, Chans=22, Samples=256 and source defaults), the
temporal windows of the two average-pooling layers are 6 and 8 — the
`else` branch at lines 79-80 sets `pool_size = (1, 6)` and
`pool_size2 = (1, 12)` — not the 4 and 8 the claim states. -/
theorem C3_counterexample :
    (avgPoolSizes (chainLayers
        (EEGNetGraph 4 22 256 (1/2) 64 8 2 16 (1/4) .dropout false).output)).map
      (tslot false) = [6, 12]
  ∧ ¬ ((avgPoolSizes (chainLayers
        (EEGNetGraph 4 22 256 (1/2) 64 8 2 16 (1/4) .dropout false).output)).map
      (tslot false) = [4, 8]) := by decide

set_option maxHeartbeats 2000000 in
/-- C3 (amended): under the default feature-major layout (cpu = false),
EEGNet_SSVEP's Block-1/Block-2 average-pool temporal windows are 4 and 8
(total temporal downsampling 4·8 = 32×) — and so are EEGNet's under
cpu = true — but EEGNet under cpu = false uses windows 6 and 12, for a
6·12 = 72× total temporal downsampling. -/
theorem C3_pool_windows (nb Chans Samples : Nat) (r nr : ℚ)
    (kl F1 D F2 : Nat) (dk : DropKind) :
    (avgPoolSizes (chainLayers
        (EEGNetGraph nb Chans Samples r kl F1 D F2 nr dk false).output)).map
      (tslot false) = [6, 12]
  ∧ ([6, 12] : List Nat).prod = 72
  ∧ (avgPoolSizes (chainLayers
        (EEGNetGraph nb Chans Samples r kl F1 D F2 nr dk true).output)).map
      (tslot true) = [4, 8]
  ∧ (∀ cpu, (avgPoolSizes (chainLayers
        (EEGNet_SSVEPGraph nb Chans Samples r kl F1 D F2 dk cpu).output)).map
      (tslot cpu) = [4, 8])
  ∧ ([4, 8] : List Nat).prod = 32 := by
  refine ⟨rfl, rfl, rfl, ?_, rfl⟩
  intro cpu; cases cpu <;> rfl

/-- C4 counterexample: EEGNet_SSVEP (built at its source defaults, nb=12,
Chans=8, Samples=256) feeds its flattened features to a dense layer with NO
kernel constraint (line 185 passes no `kernel_constraint`), so the claim that
all three depthwise-separable builders carry a max-norm-constrained dense
head is false. -/
theorem C4_counterexample :
    flatDenseSoftmaxHead
        (EEGNet_SSVEPGraph 12 8 256 (1/2) 256 96 1 96 .dropout false).output
      = some (12, none)
  ∧ ¬ ∃ c : MaxNorm,
      flatDenseSoftmaxHead
          (EEGNet_SSVEPGraph 12 8 256 (1/2) 256 96 1 96 .dropout false).output
        = some (12, some c) := by
  refine ⟨rfl, ?_⟩
  rintro ⟨c, hc⟩
  rw [show flatDenseSoftmaxHead
      (EEGNet_SSVEPGraph 12 8 256 (1/2) 256 96 1 96 .dropout false).output
      = some (12, none) from rfl] at hc
  simp at hc

/-- C4 (amended): in each of EEGNet, EEGNet_SSVEP and EEGNet_fusion the
flattened Block-2 feature vector is fed to a dense classification layer
followed by a softmax activation; the dense layer carries a max-norm kernel
constraint (bound `norm_rate`) in EEGNet and EEGNet_fusion, but carries no
kernel constraint in EEGNet_SSVEP. -/
theorem C4_dense_head (nb Chans Samples : Nat) (r nr : ℚ)
    (kl F1 D F2 : Nat) (dk : DropKind) (cpu : Bool) :
    flatDenseSoftmaxHead (EEGNetGraph nb Chans Samples r kl F1 D F2 nr dk cpu).output
      = some (nb, some ⟨nr, [0]⟩)
  ∧ flatDenseSoftmaxHead (EEGNet_fusionGraph nb Chans Samples r nr dk).output
      = some (nb, some ⟨nr, [0]⟩)
  ∧ flatDenseSoftmaxHead (EEGNet_SSVEPGraph nb Chans Samples r kl F1 D F2 dk cpu).output
      = some (nb, none) :=
  ⟨rfl, rfl, rfl⟩

/-- C5 counterexample: DeepConvNet (built at nb=4, Chans=22, Samples=256,
cpu=false) contains five convolutions, all with the library-default bias
enabled — not the eight unbiased convolutions (two per stage, four stages)
the claim implies. -/
theorem C5_counterexample :
    (convSpecs (chainLayers (DeepConvNet 4 22 256 (1/2) false).output)).length = 5
  ∧ (convSpecs (chainLayers (DeepConvNet 4 22 256 (1/2) false).output)).map
      (fun q => q.2.2.1) = [true, true, true, true, true]
  ∧ ¬ ((convSpecs (chainLayers (DeepConvNet 4 22 256 (1/2) false).output)).length = 8
      ∧ ∀ q ∈ convSpecs (chainLayers (DeepConvNet 4 22 256 (1/2) false).output),
          q.2.2.1 = false) := by decide

set_option maxHeartbeats 2000000 in
/-- C5 (amended): DeepConvNet builds exactly four sequential stages; the
FIRST stage has two norm-constrained convolutions (a temporal kernel, then a
kernel spanning the entire channel axis), while stages two to four have ONE
norm-constrained temporal convolution each; every convolution keeps the
library-default bias (it is not unbiased); each stage ends with batch
normalization with epsilon 1e-05 and momentum 0.1, an elu nonlinearity, max
pooling with stride equal to pool size, and dropout; the filter counts are
25, 50, 100, 200 across the four stages. -/
theorem C5_deepconvnet_stages (nb Chans Samples : Nat) (r : ℚ) (cpu : Bool) :
    chainLayers (DeepConvNet nb Chans Samples r cpu).output
      = deepStageFirst (if cpu then (5, 1) else (1, 5))
          (if cpu then (1, Chans) else (Chans, 1))
          (if cpu then (2, 1) else (1, 2)) (if cpu then (2, 1) else (1, 2)) r
        ++ deepStageLater 50 (if cpu then (5, 1) else (1, 5))
            (if cpu then (2, 1) else (1, 2)) (if cpu then (2, 1) else (1, 2)) r
        ++ deepStageLater 100 (if cpu then (5, 1) else (1, 5))
            (if cpu then (2, 1) else (1, 2)) (if cpu then (2, 1) else (1, 2)) r
        ++ deepStageLater 200 (if cpu then (5, 1) else (1, 5))
            (if cpu then (2, 1) else (1, 2)) (if cpu then (2, 1) else (1, 2)) r
        ++ [.flatten, .dense nb (some ⟨1/2, [0]⟩) none, .activation .softmax]
  ∧ (convSpecs (chainLayers (DeepConvNet nb Chans Samples r cpu).output)).map
      (fun q => q.2.1) = [25, 25, 50, 100, 200]
  ∧ (convSpecs (chainLayers (DeepConvNet nb Chans Samples r cpu).output)).map
      (fun q => q.2.2.1) = [true, true, true, true, true]
  ∧ cslot cpu (if cpu then ((1, Chans) : Nat × Nat) else (Chans, 1)) = Chans := by
  cases cpu <;>
    simp [DeepConvNet, chainLayers, deepStageFirst, deepStageLater, convSpecs, cslot]

/-- C6: ShallowConvNet's custom logarithm activation computes
`log(clip(x, 1e-7, 1e4))` elementwise; for every pre-activation value
(including zero and negatives) the argument handed to the logarithm lies in
[1e-7, 1e4], hence it is strictly positive (the log's domain-error branch is
unreachable) and the activation output is pinned between the finite values
`log 1e-7` and `log 1e4`. -/
theorem C6_log_clip_safe (x : ℚ) :
    1/10000000 ≤ log_clip_arg x
  ∧ log_clip_arg x ≤ 10000
  ∧ 0 < log_clip_arg x
  ∧ Real.log (((1/10000000 : ℚ) : ℝ)) ≤ Real.log ((log_clip_arg x : ℚ) : ℝ)
  ∧ Real.log ((log_clip_arg x : ℚ) : ℝ) ≤ Real.log (((10000 : ℚ) : ℝ)) := by
  have hlo : (1 : ℚ)/10000000 ≤ log_clip_arg x := by
    unfold log_clip_arg K_clip
    exact le_min (le_max_right _ _) (by norm_num)
  have hhi : log_clip_arg x ≤ 10000 := by
    unfold log_clip_arg K_clip
    exact min_le_right _ _
  have hpos : (0 : ℚ) < log_clip_arg x := lt_of_lt_of_le (by norm_num) hlo
  refine ⟨hlo, hhi, hpos, ?_, ?_⟩
  · exact Real.log_le_log (by norm_num) (Rat.cast_le.mpr hlo)
  · exact Real.log_le_log (by exact_mod_cast hpos) (Rat.cast_le.mpr hhi)

set_option maxHeartbeats 4000000 in
/-- C7: EEGNet_fusion builds exactly three depthwise-separable branches on
three input nodes of identical spatial geometry `(1, Chans, Samples)`,
created and listed in that order; the branches' Block-1 temporal convolution
kernels are (1,64), (1,96), (1,128) with filter counts rising accordingly
(F1 = 8, 16, 64; separable filters F2 = 16, 32, 128); each branch ends in a
Flatten; the three flattened vectors are concatenated in the fixed order
branch 1, branch 2, branch 3, and fed through one shared
max-norm-constrained dense + softmax head. -/
theorem C7_fusion_structure (nb Chans Samples : Nat) (r nr : ℚ) (dk : DropKind) :
    ∃ b1 b2 b3 : Node,
      (EEGNet_fusionGraph nb Chans Samples r nr dk).output
        = .apply (.activation .softmax)
            (.apply (.dense nb (some ⟨nr, [0]⟩) none)
              (.apply .flatten (.concat (.concat b1 b2) b3)))
    ∧ (EEGNet_fusionGraph nb Chans Samples r nr dk).inputs
        = [.input 0 [1, Chans, Samples], .input 1 [1, Chans, Samples],
           .input 2 [1, Chans, Samples]]
    ∧ rootInput b1 = some 0 ∧ rootInput b2 = some 1 ∧ rootInput b3 = some 2
    ∧ (∃ s1, b1 = .apply .flatten s1)
    ∧ (∃ s2, b2 = .apply .flatten s2)
    ∧ (∃ s3, b3 = .apply .flatten s3)
    ∧ conv2DKernels (chainLayers b1) = [(1, 64)]
    ∧ conv2DKernels (chainLayers b2) = [(1, 96)]
    ∧ conv2DKernels (chainLayers b3) = [(1, 128)]
    ∧ conv2DFilters (chainLayers b1) = [8]
    ∧ conv2DFilters (chainLayers b2) = [16]
    ∧ conv2DFilters (chainLayers b3) = [64]
    ∧ sepFilters (chainLayers b1) = [16]
    ∧ sepFilters (chainLayers b2) = [32]
    ∧ sepFilters (chainLayers b3) = [128]
    ∧ sepKernels (chainLayers b1) = [(1, 8)]
    ∧ sepKernels (chainLayers b2) = [(1, 16)]
    ∧ sepKernels (chainLayers b3) = [(1, 32)] := by
  refine ⟨_, _, _, rfl, rfl, rfl, rfl, rfl, ⟨_, rfl⟩, ⟨_, rfl⟩, ⟨_, rfl⟩,
    rfl, rfl, rfl, rfl, rfl, rfl, rfl, rfl, rfl, rfl, rfl, rfl⟩

/-- C8 counterexample: in EEGNet under the time-major layout (cpu = true,
built at nb=4, Chans=22, Samples=256 and source defaults) every
batch-normalization layer is created with `axis = 1`, but the feature-map
axis of the time-major batched shape `(batch, Samples, Chans, 1)` is axis 3;
so the geometry table of that layout is NOT internally consistent: the
normalization layers normalize the temporal axis, not the feature-map axis. -/
theorem C8_counterexample :
    bnAxes (chainLayers
        (EEGNetGraph 4 22 256 (1/2) 64 8 2 16 (1/4) .dropout true).output) = [1, 1, 1]
  ∧ featureAxis2D true = 3
  ∧ ¬ (bnConsistentB 4 (featureAxis2D true)
        (chainLayers
          (EEGNetGraph 4 22 256 (1/2) 64 8 2 16 (1/4) .dropout true).output) = true) := by
  decide

set_option maxHeartbeats 4000000 in
/-- C8 (amended): for every builder that accepts the layout flag, the
kernel/stride/pool tuples of both layouts are correctly oriented — each
tuple's temporal extent falls on the temporal slot of the layout's axis
order and its channel extent (1, or the full channel span `Chans`, for the
EEG-specific builders) on the channel slot — but the batch-normalization
axis is NOT resolved per layout: the builders that pass `axis = 1`
(EEGNet, EEGNet_SSVEP, DeepConvNet, ShallowConvNet) normalize the
feature-map axis only under the feature-major layout (cpu = false), while
the builders that leave the default last axis (ConvNet3D, ConvNet3D_2,
DeeperConvNet, ConvNet2D) normalize it only under the time-major layout
(cpu = true); batch normalizations applied after Flatten act on the rank-2
`(batch, features)` tensor, whose feature axis is the resolved last axis in
both layouts. -/
theorem C8_layout_tables (nb Chans Samples Chunks : Nat) (r nr : ℚ)
    (kl F1 D F2 : Nat) (dk : DropKind) (cpu : Bool) :
    (tuples2D (chainLayers (EEGNetGraph nb Chans Samples r kl F1 D F2 nr dk cpu).output)).map
        (tslot cpu)
      = [kl, 1, 1, if cpu then 4 else 6, if cpu then 16 else 20, if cpu then 8 else 12]
  ∧ (tuples2D (chainLayers (EEGNetGraph nb Chans Samples r kl F1 D F2 nr dk cpu).output)).map
        (cslot cpu) = [1, 1, Chans, 1, 1, 1]
  ∧ bnConsistentB 4 (featureAxis2D cpu)
      (chainLayers (EEGNetGraph nb Chans Samples r kl F1 D F2 nr dk cpu).output) = !cpu
  ∧ (tuples2D (chainLayers
        (EEGNet_SSVEPGraph nb Chans Samples r kl F1 D F2 dk cpu).output)).map (tslot cpu)
      = [kl, 1, 1, 4, 16, 8]
  ∧ (tuples2D (chainLayers
        (EEGNet_SSVEPGraph nb Chans Samples r kl F1 D F2 dk cpu).output)).map (cslot cpu)
      = [1, 1, Chans, 1, 1, 1]
  ∧ bnConsistentB 4 (featureAxis2D cpu)
      (chainLayers (EEGNet_SSVEPGraph nb Chans Samples r kl F1 D F2 dk cpu).output) = !cpu
  ∧ (tuples2D (chainLayers (DeepConvNet nb Chans Samples r cpu).output)).map (tslot cpu)
      = [5, 1, 1, 1, 2, 2, 5, 1, 2, 2, 5, 1, 2, 2, 5, 1, 2, 2]
  ∧ (tuples2D (chainLayers (DeepConvNet nb Chans Samples r cpu).output)).map (cslot cpu)
      = [1, 1, Chans, 1, 1, 1, 1, 1, 1, 1, 1, 1, 1, 1, 1, 1, 1, 1]
  ∧ bnConsistentB 4 (featureAxis2D cpu)
      (chainLayers (DeepConvNet nb Chans Samples r cpu).output) = !cpu
  ∧ (tuples2D (chainLayers (ShallowConvNet nb Chans Samples r cpu).output)).map (tslot cpu)
      = [13, 1, 1, 1, 35, 7]
  ∧ (tuples2D (chainLayers (ShallowConvNet nb Chans Samples r cpu).output)).map (cslot cpu)
      = [1, 1, Chans, 1, 1, 1]
  ∧ bnConsistentB 4 (featureAxis2D cpu)
      (chainLayers (ShallowConvNet nb Chans Samples r cpu).output) = !cpu
  ∧ (tuples2D (chainLayers (ConvNet2D nb Chans Samples r cpu).output)).map (tslot cpu)
      = [4, 1, 4, 4, 1, 4]
  ∧ (tuples2D (chainLayers (ConvNet2D nb Chans Samples r cpu).output)).map (cslot cpu)
      = [2, 1, 2, 2, 1, 4]
  ∧ bnConsistentB 4 (featureAxis2D cpu)
      (preFlatten (chainLayers (ConvNet2D nb Chans Samples r cpu).output)) = cpu
  ∧ bnConsistentB 2 1
      (postFlatten (chainLayers (ConvNet2D nb Chans Samples r cpu).output)) = true
  ∧ (tuples2D (chainLayers (DeeperConvNet nb Chans Samples r cpu).output)).map (tslot cpu)
      = (tuples2D (chainLayers (DeeperConvNet nb Chans Samples r cpu).output)).map (cslot cpu)
  ∧ bnConsistentB 4 (featureAxis2D cpu)
      (chainLayers (DeeperConvNet nb Chans Samples r cpu).output) = cpu
  ∧ bnAxes (postFlatten (chainLayers (DeeperConvNet nb Chans Samples r cpu).output)) = []
  ∧ (tuples3D (chainLayers (ConvNet3D nb Chans Chunks Samples r cpu).output)).map (tslot3 cpu)
      = [5, 4, 3, 2, 3, 2]
  ∧ (tuples3D (chainLayers (ConvNet3D nb Chans Chunks Samples r cpu).output)).map (cslot3 cpu)
      = [3, 2, 2, 2, 2, 2]
  ∧ (tuples3D (chainLayers (ConvNet3D nb Chans Chunks Samples r cpu).output)).map mslot3
      = [3, 2, 2, 2, 1, 2]
  ∧ bnConsistentB 5 (featureAxis3D cpu)
      (chainLayers (ConvNet3D nb Chans Chunks Samples r cpu).output) = cpu
  ∧ (tuples3D (chainLayers (ConvNet3D_2 nb Chans Chunks Samples r cpu).output)).map (tslot3 cpu)
      = [5, 4, 3, 2, 3, 2]
  ∧ (tuples3D (chainLayers (ConvNet3D_2 nb Chans Chunks Samples r cpu).output)).map (cslot3 cpu)
      = [3, 2, 2, 2, 2, 2]
  ∧ (tuples3D (chainLayers (ConvNet3D_2 nb Chans Chunks Samples r cpu).output)).map mslot3
      = [3, 2, 2, 2, 1, 2]
  ∧ bnConsistentB 5 (featureAxis3D cpu)
      (preFlatten (chainLayers (ConvNet3D_2 nb Chans Chunks Samples r cpu).output)) = cpu
  ∧ bnConsistentB 2 1
      (postFlatten (chainLayers (ConvNet3D_2 nb Chans Chunks Samples r cpu).output)) = true := by
  cases cpu <;>
    simp [EEGNetGraph, EEGNet_SSVEPGraph, DeepConvNet, ShallowConvNet, ConvNet2D,
      DeeperConvNet, ConvNet3D, ConvNet3D_2, chainLayers, tuples2D, layerTuples2D,
      tuples3D, layerTuples3D, tslot, cslot, tslot3, cslot3, mslot3, bnConsistentB,
      bnAxes, resolveAxis, featureAxis2D, featureAxis3D, preFlatten, postFlatten,
      notFlatten]

set_option maxHeartbeats 2000000 in
/-- C9: EEGNet_old defaults to kernels [(2, 32), (8, 4)], strides (2, 4),
regRate 0.0001 and dropoutRate 0.25 (recorded in `EEGNet_old_defaults`); its
first layer is a single convolution whose kernel `(Chans, 1)` spans the full
channel extent, regularized with both L1 and L2 at rate `regRate`; it is
followed by a `Permute((2, 1, 3))` swapping the channel and filter axes and
then by two further convolutions regularized with L2 only (l1 rate 0) that
downsample with the `strides` argument; the chain contains no pooling layer. -/
theorem C9_eegnet_old_structure (nb Chans Samples : Nat) (rr dr : ℚ)
    (kers : (Nat × Nat) × (Nat × Nat)) (st : Nat × Nat) :
    EEGNet_old_defaults = ((1/10000, 1/4), ((2, 32), (8, 4)), (2, 4))
  ∧ chainLayers (EEGNet_old nb Chans Samples rr dr kers st).output
      = [.conv2D 16 (Chans, 1) (1, 1) false true none (some (rr, rr)),
         .batchNorm 1 (1/1000) (99/100), .activation .elu, .dropoutL .dropout dr,
         .permute (2, 1, 3),
         .conv2D 4 kers.1 st true true none (some (0, rr)),
         .batchNorm 1 (1/1000) (99/100), .activation .elu, .dropoutL .dropout dr,
         .conv2D 4 kers.2 st true true none (some (0, rr)),
         .batchNorm 1 (1/1000) (99/100), .activation .elu, .dropoutL .dropout dr,
         .flatten, .dense nb none none, .activation .softmax]
  ∧ (chainLayers (EEGNet_old nb Chans Samples rr dr kers st).output).countP
      isPoolLayer = 0
  ∧ cslot false (Chans, 1) = Chans := by
  refine ⟨rfl, ?_, ?_, rfl⟩
  · simp [EEGNet_old, chainLayers]
  · simp [EEGNet_old, chainLayers, isPoolLayer, List.countP_cons, List.countP_nil]

/-- C10: for DeeperConvNet and ConvNet2D the `dropoutRate` parameter has no
effect on the built graph — two calls differing only in `dropoutRate` return
identical models — because every dropout layer in these two builders uses a
hard-coded rate: 0.2 (five times) and 0.5 in DeeperConvNet, 0.45 in
ConvNet2D. -/
theorem C10_dropout_rate_ignored (nb Chans Samples : Nat) (r1 r2 : ℚ) (cpu : Bool) :
    DeeperConvNet nb Chans Samples r1 cpu = DeeperConvNet nb Chans Samples r2 cpu
  ∧ ConvNet2D nb Chans Samples r1 cpu = ConvNet2D nb Chans Samples r2 cpu
  ∧ dropRates (chainLayers (DeeperConvNet nb Chans Samples r1 cpu).output)
      = [1/5, 1/5, 1/5, 1/5, 1/5, 1/2]
  ∧ dropRates (chainLayers (ConvNet2D nb Chans Samples r1 cpu).output) = [9/20] := by
  refine ⟨rfl, rfl, ?_, ?_⟩ <;>
    simp [DeeperConvNet, ConvNet2D, chainLayers, dropRates]
